import Mathlib

/-
Verification of the HandyGCCS event reconciliation core: a shallow embedding
of src/handycon/event_emitter.py (EventEmitter.process_event, emit_now,
emit_events, emit_event) and of the power-button handling in
src/handycon/handycon.py (capture_power_events, handle_power_action).

Python effects (writes to the virtual uinput device, side-effect handler
dispatch, pacing sleeps, rumble, logging, shell commands) are modelled as an
explicit list of Emission values returned by each translated function, in the
order the Python code performs them.  The mutable session state
(event_queue, last_button) is threaded explicitly.
-/

namespace HandyGCCS

/-- evdev InputEvent: InputEvent(sec, usec, type, code, value).  Codes and
values are Python ints, modelled as Int. -/
structure InputEvent where
  sec : Int
  usec : Int
  type : Int
  code : Int
  value : Int
deriving DecidableEq

/-- One element of a Python LogicalAction list: either a side-effect name
string (e.g. "Toggle Performance") or a two-element [type, code] list used to
build a synthetic InputEvent. -/
inductive ActionElem where
  | str (s : String)
  | pair (a b : Int)
deriving DecidableEq

/-- A LogicalAction is a Python list; emit_now dispatches on whether its first
element is a string. -/
abbrev LogicalAction := List ActionElem

/-- The side-effect handlers reachable from emit_now's match statement. -/
inductive Handler where
  | increase_screen_brightness (amount : Int)
  | decrease_screen_brightness (amount : Int)
  | increase_led_brightness
  | decrease_led_brightness
  | switch_led_mode
  | steam_ifrunning_deckui (cmd : String)
  | launch_chimera
  | toggle_performance
deriving DecidableEq

/-- Observable effects of the translated code, in program order. -/
inductive Emission where
  | synth (ev : InputEvent)
  | sleep
  | rumble
  | handler (h : Handler)
  | logError (msg : String)
  | logWarning (msg : String)
  | logDebug (msg : String)
  | sysCommand (cmd : String)
deriving DecidableEq

/-- Python truthiness of `this_button` / `self.last_button`: None is falsy and
so is an empty list. -/
def pyTruthy : Option LogicalAction → Bool
  | none => false
  | some l => !l.isEmpty

/-- Python list.remove: removes the first occurrence, or raises ValueError
(modelled as none) when the element is absent. -/
def pythonListRemove (q : List LogicalAction) (a : LogicalAction) :
    Option (List LogicalAction) :=
  match q with
  | [] => none
  | x :: xs =>
      if x = a then some xs
      else (pythonListRemove xs a).map (fun l => x :: l)

/-- The `try: self.event_queue.remove(this_button) except ValueError: pass`
idiom in process_event: remove the first occurrence if present, otherwise
leave the queue unchanged. -/
def removeCatchingValueError (q : List LogicalAction) (a : LogicalAction) :
    List LogicalAction :=
  (pythonListRemove q a).getD q

/-- emit_event: `self.ui_device.write_event(event); self.ui_device.syn()` —
one synthetic write. -/
def emit_event (ev : InputEvent) : List Emission := [Emission.synth ev]

/-- emit_events: emits each event and pauses for self.BUTTON_DELAY between
events "but not after the last one in the list".  The source guard is
`if event != events[-1]`; evdev's InputEvent defines no __eq__, so `!=` is
object identity, and the freshly constructed events in the only caller
(emit_now) are pairwise distinct objects — the guard therefore distinguishes
list positions: a sleep follows every element except the final one. -/
def emit_events : List InputEvent → List Emission
  | [] => []
  | [ev0] => [Emission.synth ev0]
  | ev0 :: ev1 :: rest =>
      Emission.synth ev0 :: Emission.sleep :: emit_events (ev1 :: rest)

/-- The `match event_list[0]` statement of emit_now for string actions.
Python's literal match compiles to equality tests in source order.  Note the
source arm `case "Hibernate", "Suspend", "Shutdown":` is a three-element
sequence pattern, which can never match a str subject (PEP 634 excludes
str/bytes from sequence patterns), so those three names fall through to the
`case _` wildcard like any other undefined name. -/
def stringDispatch (s : String) : List Emission :=
  if s = "Increase screen brightness" then
    [Emission.handler (Handler.increase_screen_brightness 25)]
  else if s = "Decrease screen brightness" then
    [Emission.handler (Handler.decrease_screen_brightness 25)]
  else if s = "Increase led brightness" then
    [Emission.handler Handler.increase_led_brightness]
  else if s = "Decrease led brightness" then
    [Emission.handler Handler.decrease_led_brightness]
  else if s = "Switch led mode" then
    [Emission.handler Handler.switch_led_mode]
  else if s = "Open Keyboard" then
    [Emission.handler (Handler.steam_ifrunning_deckui "steam://open/keyboard")]
  else if s = "Open Chimera" then
    [Emission.logDebug "Open Chimera", Emission.handler Handler.launch_chimera]
  else if s = "Toggle Gyro" then
    [Emission.logDebug "Toggle Gyro is not currently enabled"]
  else if s = "Toggle Mouse Mode" then
    [Emission.logDebug "Toggle Mouse Mode is not currently enabled"]
  else if s = "Toggle Performance" then
    [Emission.logDebug "Toggle Performance", Emission.handler Handler.toggle_performance]
  else
    [Emission.logWarning (s ++ " not defined.")]

/-- `button_event[0]` for a pair element.  (emit_now only reaches this when
event_list[0] is not a string; for a stray string element Python would index
into the string itself — no shipped button map mixes the two shapes, and every
theorem below quantifies over pure pair lists.) -/
def elem_type : ActionElem → Int
  | ActionElem.pair a _ => a
  | ActionElem.str _ => 0

/-- `button_event[1]` for a pair element (same caveat as elem_type). -/
def elem_code : ActionElem → Int
  | ActionElem.pair _ b => b
  | ActionElem.str _ => 0

/-- `InputEvent(seed_event.sec, seed_event.usec, button_event[0],
button_event[1], value)` in emit_now's loops. -/
def mkSynth (seed_event : InputEvent) (value : Int) (be : ActionElem) : InputEvent :=
  ⟨seed_event.sec, seed_event.usec, elem_type be, elem_code be, value⟩

/-- The size dispatch ending emit_now: `size = len(events); if size > 1:
await self.emit_events(events) elif size == 1: self.emit_event(events[0])`. -/
def emitBySize (events : List InputEvent) : List Emission :=
  if 1 < events.length then emit_events events
  else if events.length = 1 then
    match events with
    | ev0 :: _ => emit_event ev0
    | [] => []
  else []

/-- emit_now: generates events from an event list.  Empty lists are logged and
skipped; string actions dispatch side effects on press only; pair lists build
value-stamped copies in listed order (press) or reverse order (release) and
hand them to emit_events (several events) or emit_event (exactly one). -/
def emit_now (seed_event : InputEvent) (event_list : LogicalAction) (value : Int) :
    List Emission :=
  match event_list with
  | [] => [Emission.logError "emit_now received malfirmed event_list. No action"]
  | ActionElem.str s :: _ =>
      if value = 0 then
        [Emission.logDebug
          "Received string event with value 0. KEY_UP event not required. Skipping"]
      else stringDispatch s
  | ActionElem.pair _ _ :: _ =>
      if value = 0 then
        emitBySize ((event_list.reverse).map (fun be => mkSynth seed_event value be))
      else
        emitBySize (event_list.map (fun be => mkSynth seed_event value be))

/-- Static inputs of EventEmitter.process_event: the twelve-slot user button
map (button7 is commented out in the source and never read) and the
EVENT_BTN_A / EVENT_BTN_X constants.  The latter live in constants.py, which
is not among the scanned sources, so they stay abstract here. -/
structure Config where
  button1 : LogicalAction
  button2 : LogicalAction
  button3 : LogicalAction
  button4 : LogicalAction
  button5 : LogicalAction
  button6 : LogicalAction
  button8 : LogicalAction
  button9 : LogicalAction
  button10 : LogicalAction
  button11 : LogicalAction
  button12 : LogicalAction
  event_btn_a : LogicalAction
  event_btn_x : LogicalAction
deriving DecidableEq

/-- The mutable session state touched by process_event. -/
structure EmitterState where
  event_queue : List LogicalAction
  last_button : Option LogicalAction
deriving DecidableEq

/-- One `if <down> ... elif <up> ...` chord block of process_event: a trigger
active-key pattern, the release code set of the elif arm, the mapped button,
and whether the down arm calls do_rumble (only BUTTON 8 does). -/
structure ChordRule where
  pattern : List Int
  upCodes : List Int
  button : LogicalAction
  hasRumble : Bool
deriving DecidableEq

/-- The eleven active chord blocks of EventEmitter.process_event, in source
order (BUTTON 7 is commented out). -/
def chordRules (cfg : Config) : List ChordRule :=
  [⟨[184], [184, 185], cfg.button1, false⟩,
   ⟨[148], [148], cfg.button2, false⟩,
   ⟨[25, 125], [49, 125, 185], cfg.button3, false⟩,
   ⟨[88], [88, 185], cfg.button4, false⟩,
   ⟨[186], [186], cfg.button5, false⟩,
   ⟨[68], [68, 185], cfg.button6, false⟩,
   ⟨[29, 56, 111], [29, 56, 111], cfg.button8, true⟩,
   ⟨[1, 29, 42], [1, 29, 42, 185], cfg.button9, false⟩,
   ⟨[32, 125], [32, 125, 185], cfg.button10, false⟩,
   ⟨[15, 125], [15, 125, 185], cfg.button11, false⟩,
   ⟨[49, 125], [25, 125, 185], cfg.button12, false⟩]

/-- The trigger patterns of the queue-registering chord blocks (they do not
depend on the button map). -/
def registeringPatterns : List (List Int) :=
  [[184], [148], [25, 125], [88], [186], [68], [29, 56, 111],
   [1, 29, 42], [32, 125], [15, 125], [49, 125]]

/-- Running accumulator while the chord blocks execute: the queue, the
`this_button` local, and the emissions performed so far (rumble). -/
structure ChainAcc where
  queue : List LogicalAction
  this_button : Option LogicalAction
  emis : List Emission
deriving DecidableEq

/-- One chord block: `if active_keys == pattern and button_on == 1 and
button not in event_queue: event_queue.append(button) [do_rumble] elif
active_keys == [] and seed_event.code in upCodes and button_on == 0 and
button in event_queue: this_button = button`. -/
def buttonChain (seed_event : InputEvent) (active_keys : List Int)
    (acc : ChainAcc) (r : ChordRule) : ChainAcc :=
  if active_keys = r.pattern ∧ seed_event.value = 1 ∧ r.button ∉ acc.queue then
    { acc with
        queue := acc.queue ++ [r.button],
        emis := acc.emis ++ (if r.hasRumble then [Emission.rumble] else []) }
  else if active_keys = [] ∧ seed_event.code ∈ r.upCodes ∧ seed_event.value = 0
      ∧ r.button ∈ acc.queue then
    { acc with this_button := some r.button }
  else acc

/-- Runs the eleven chord blocks in source order. -/
def scanChains (cfg : Config) (seed_event : InputEvent) (active_keys : List Int)
    (queue : List LogicalAction) (t0 : Option LogicalAction) : ChainAcc :=
  (chordRules cfg).foldl (buttonChain seed_event active_keys)
    { queue := queue, this_button := t0, emis := [] }

/-- Lines 385-387: `if active_keys == [] and self.event_queue != []:
this_button = self.event_queue[0]` (the missed-keys fallback). -/
def fallbackThis (queue : List LogicalAction) (active_keys : List Int) :
    Option LogicalAction :=
  if active_keys = [] ∧ queue ≠ [] then queue.head? else none

/-- Lines 389-422: the seven hard-coded side-effect chords, each a separate
`if` that overwrites this_button. -/
def stringRuleThis (seed_event : InputEvent) (active_keys : List Int)
    (t0 : Option LogicalAction) : Option LogicalAction :=
  let t := if active_keys = [186, 311] ∧ seed_event.code = 186 ∧ seed_event.value = 1
    then some [ActionElem.str "Increase screen brightness"] else t0
  let t := if active_keys = [186, 310] ∧ seed_event.code = 186 ∧ seed_event.value = 1
    then some [ActionElem.str "Decrease screen brightness"] else t
  let t := if active_keys = [148, 311] ∧ seed_event.code = 148 ∧ seed_event.value = 1
    then some [ActionElem.str "Increase led brightness"] else t
  let t := if active_keys = [148, 310] ∧ seed_event.code = 148 ∧ seed_event.value = 1
    then some [ActionElem.str "Decrease led brightness"] else t
  let t := if active_keys = [148, 310, 311] ∧ seed_event.code = 148 ∧ seed_event.value = 1
    then some [ActionElem.str "Switch led mode"] else t
  let t := if active_keys = [186, 310, 311] ∧ seed_event.code = 186 ∧ seed_event.value = 1
    then some [ActionElem.str "Toggle Performance"] else t
  let t := if active_keys = [186, 307] ∧ seed_event.code = 186 ∧ seed_event.value = 1
    then some [ActionElem.str "Open Keyboard"] else t
  t

/-- Lines 424-438 (for one of the two pass-through buttons): `if active_keys
== [axCode] and button_on in [1, 2]: emit_now(btn, 1) elif active_keys == []
and seed_event.code == axCode and button_on == 0: emit_now(btn, 0)`. -/
def axEmissions (seed_event : InputEvent) (active_keys : List Int)
    (btn : LogicalAction) (axCode : Int) : List Emission :=
  if active_keys = [axCode] ∧ (seed_event.value = 1 ∨ seed_event.value = 2) then
    emit_now seed_event btn 1
  else if active_keys = [] ∧ seed_event.code = axCode ∧ seed_event.value = 0 then
    emit_now seed_event btn 0
  else []

/-- Lines 584-597, the promote / demote tail of process_event:
`if this_button and not self.last_button: try remove; last_button :=
this_button; emit_now(this_button, 1)  elif self.last_button and not
this_button: emit_now(last_button, 0); last_button := None`.
Returns (new last_button, new event_queue, emissions). -/
def resolveTail (seed_event : InputEvent) (last_button : Option LogicalAction)
    (queue : List LogicalAction) (this_button : Option LogicalAction) :
    Option LogicalAction × List LogicalAction × List Emission :=
  if pyTruthy this_button ∧ ¬ pyTruthy last_button then
    (this_button, removeCatchingValueError queue (this_button.getD []),
      emit_now seed_event (this_button.getD []) 1)
  else if pyTruthy last_button ∧ ¬ pyTruthy this_button then
    (none, queue, emit_now seed_event (last_button.getD []) 0)
  else (last_button, queue, [])

/-- Result of one process_event call: the successor state, the emissions made
while scanning the rules (A/X pass-through presses and rumble), and the
emissions of the final promote / demote section. -/
structure StepOut where
  state : EmitterState
  passthrough : List Emission
  tailEmissions : List Emission
deriving DecidableEq

/-- EventEmitter.process_event: fallback, side-effect chords, A/X
pass-through, the eleven chord blocks, then the promote / demote tail. -/
def process_event (cfg : Config) (s : EmitterState) (seed_event : InputEvent)
    (active_keys : List Int) : StepOut :=
  let t0 := fallbackThis s.event_queue active_keys
  let t1 := stringRuleThis seed_event active_keys t0
  let ax := axEmissions seed_event active_keys cfg.event_btn_a 187
    ++ axEmissions seed_event active_keys cfg.event_btn_x 188
  let acc := scanChains cfg seed_event active_keys s.event_queue t1
  let out := resolveTail seed_event s.last_button acc.queue acc.this_button
  { state := { event_queue := out.2.1, last_button := out.1 },
    passthrough := ax ++ acc.emis,
    tailEmissions := out.2.2 }

/-- The value of the this_button local when control reaches line 584 (the
action process_event resolved for this event, if any). -/
def resolvedButton (cfg : Config) (queue : List LogicalAction)
    (seed_event : InputEvent) (active_keys : List Int) : Option LogicalAction :=
  (scanChains cfg seed_event active_keys queue
    (stringRuleThis seed_event active_keys (fallbackThis queue active_keys))).this_button

/-- evdev ecodes.EV_KEY. -/
def EV_KEY : Int := 1

/-- HandheldController.handle_power_action: runs the systemctl command picked
by the configured power_action (a match with no wildcard: any other string
does nothing). -/
def handle_power_action (power_action : String) : List Emission :=
  if power_action = "Suspend" then [Emission.sysCommand "systemctl suspend"]
  else if power_action = "Hibernate" then [Emission.sysCommand "systemctl hibernate"]
  else if power_action = "Shutdown" then [Emission.sysCommand "systemctl poweroff"]
  else []

/-- The per-event body of HandheldController.capture_power_events:
`if event.type == e.EV_KEY and event.code == 116: if event.value == 0:
self.handle_power_action()`. -/
def power_event_step (power_action : String) (ev : InputEvent) : List Emission :=
  if ev.type = EV_KEY ∧ ev.code = 116 then
    if ev.value = 0 then handle_power_action power_action else []
  else []

/-- An emission that asserts a logical action on the output side: a synthetic
press (value 1) or a side-effect handler dispatch. -/
def assertsAction : Emission → Bool
  | Emission.synth ev => ev.value == 1
  | Emission.handler _ => true
  | _ => false

/-- Is this emission a side-effect handler dispatch? -/
def isHandlerEmission : Emission → Bool
  | Emission.handler _ => true
  | _ => false

/-- Is this emission a synthetic event write? -/
def isSynthEmission : Emission → Bool
  | Emission.synth _ => true
  | _ => false

/-- Is this emission a pacing sleep (asyncio.sleep(BUTTON_DELAY))? -/
def isSleep : Emission → Bool
  | Emission.sleep => true
  | _ => false

/-- Is this emission a shell command (os.system)? -/
def isSysCommand : Emission → Bool
  | Emission.sysCommand _ => true
  | _ => false

/-- The synthetic events written by a list of emissions, in order. -/
def synthsOf (l : List Emission) : List InputEvent :=
  l.filterMap (fun em => match em with
    | Emission.synth ev => some ev
    | _ => none)

/-- A LogicalAction built from (type, code) integer pairs, the shape of every
mapped gamepad button. -/
def codesAction (ps : List (Int × Int)) : LogicalAction :=
  ps.map (fun p => ActionElem.pair p.1 p.2)

/-- The side-effect names that emit_now dispatches to a handler. -/
def handledNames : List String :=
  ["Increase screen brightness", "Decrease screen brightness",
   "Increase led brightness", "Decrease led brightness", "Switch led mode",
   "Open Keyboard", "Open Chimera", "Toggle Performance"]

/-- All names with an arm in emit_now's match (handler arms plus the two
debug-only arms); everything else reaches the `case _` warning. -/
def matchArmNames : List String :=
  handledNames ++ ["Toggle Gyro", "Toggle Mouse Mode"]

/- Concrete fixtures used by witnesses and counterexamples. -/

/-- A sample single-pair action (an EV_KEY press of code 304). -/
def actA : LogicalAction := [ActionElem.pair 1 304]

/-- A second sample action, distinct from actA. -/
def actB : LogicalAction := [ActionElem.pair 1 305]

/-- A sample button map with pairwise distinct single-pair actions. -/
def cfg0 : Config :=
  { button1 := [ActionElem.pair 1 288], button2 := [ActionElem.pair 1 289],
    button3 := [ActionElem.pair 1 290], button4 := [ActionElem.pair 1 291],
    button5 := [ActionElem.pair 1 292], button6 := [ActionElem.pair 1 293],
    button8 := [ActionElem.pair 1 295], button9 := [ActionElem.pair 1 296],
    button10 := [ActionElem.pair 1 297], button11 := [ActionElem.pair 1 298],
    button12 := [ActionElem.pair 1 299],
    event_btn_a := [ActionElem.pair 1 304], event_btn_x := [ActionElem.pair 1 307] }

/-- A sample seed event (EV_KEY code 184 release). -/
def seed0 : InputEvent := ⟨10, 20, 1, 184, 0⟩

/- Helper lemmas. -/

theorem pythonListRemove_eq_none (q : List LogicalAction) (a : LogicalAction)
    (h : a ∉ q) : pythonListRemove q a = none := by
  induction q with
  | nil => rfl
  | cons x xs ih =>
    simp only [List.mem_cons, not_or] at h
    simp only [pythonListRemove, ih h.2, Option.map_none']
    rw [if_neg]
    intro hx
    exact h.1 hx.symm

theorem removeCatchingValueError_eq_erase (q : List LogicalAction)
    (a : LogicalAction) : removeCatchingValueError q a = q.erase a := by
  induction q with
  | nil => rfl
  | cons x xs ih =>
    by_cases hx : x = a
    · subst hx
      simp [removeCatchingValueError, pythonListRemove, List.erase_cons_head]
    · rw [List.erase_cons_tail (by simpa using hx)]
      simp only [removeCatchingValueError, pythonListRemove, if_neg hx]
      cases hr : pythonListRemove xs a with
      | none =>
        simp only [removeCatchingValueError, hr, Option.getD_none] at ih
        simp [hr, ← ih]
      | some l =>
        simp only [removeCatchingValueError, hr, Option.getD_some] at ih
        simp [hr, ih]

theorem removeCatchingValueError_of_not_mem (q : List LogicalAction)
    (a : LogicalAction) (h : a ∉ q) : removeCatchingValueError q a = q := by
  rw [removeCatchingValueError_eq_erase, List.erase_of_not_mem h]

theorem nodup_removeCatchingValueError (q : List LogicalAction)
    (a : LogicalAction) (h : q.Nodup) : (removeCatchingValueError q a).Nodup := by
  rw [removeCatchingValueError_eq_erase]
  exact h.erase a

theorem synthsOf_emit_events (evs : List InputEvent) :
    synthsOf (emit_events evs) = evs := by
  induction evs with
  | nil => rfl
  | cons ev0 rest ih =>
    cases rest with
    | nil => rfl
    | cons ev1 rest2 =>
      simp only [emit_events, synthsOf, List.filterMap_cons] at ih ⊢
      exact congrArg (ev0 :: ·) ih

theorem countP_asserts_emit_events (evs : List InputEvent) :
    (emit_events evs).countP assertsAction
      = evs.countP (fun e => e.value == 1) := by
  induction evs with
  | nil => rfl
  | cons ev0 rest ih =>
    cases rest with
    | nil => rfl
    | cons ev1 rest2 =>
      simp only [emit_events, List.countP_cons] at ih ⊢
      simp [ih, assertsAction]

theorem emit_events_eq_intersperse (evs : List InputEvent) :
    emit_events evs = List.intersperse Emission.sleep (evs.map Emission.synth) := by
  induction evs with
  | nil => rfl
  | cons ev0 rest ih =>
    cases rest with
    | nil => rfl
    | cons ev1 rest2 =>
      simp only [emit_events, List.map_cons, List.intersperse] at ih ⊢
      exact congrArg (fun l => Emission.synth ev0 :: Emission.sleep :: l) ih

theorem synthsOf_emitBySize (evs : List InputEvent) :
    synthsOf (emitBySize evs) = evs := by
  match evs with
  | [] => rfl
  | [ev0] => rfl
  | ev0 :: ev1 :: rest =>
    rw [emitBySize, if_pos (by simp)]
    exact synthsOf_emit_events _

theorem countP_asserts_emitBySize (evs : List InputEvent) :
    (emitBySize evs).countP assertsAction
      = evs.countP (fun e => e.value == 1) := by
  match evs with
  | [] => rfl
  | [ev0] =>
    simp [emitBySize, emit_event, List.countP_cons, assertsAction]
  | ev0 :: ev1 :: rest =>
    rw [emitBySize, if_pos (by simp)]
    exact countP_asserts_emit_events _

theorem countP_asserts_emit_now_zero (seed : InputEvent) (a : LogicalAction) :
    (emit_now seed a 0).countP assertsAction = 0 := by
  match a with
  | [] => rfl
  | ActionElem.str s :: rest => rfl
  | ActionElem.pair x y :: rest =>
    rw [emit_now, if_pos rfl, countP_asserts_emitBySize]
    rw [List.countP_eq_zero]
    intro e he
    simp only [List.mem_map] at he
    obtain ⟨be, _, rfl⟩ := he
    simp [mkSynth]

theorem resolveTail_of_truthy_last (seed : InputEvent)
    (last_button : Option LogicalAction) (queue : List LogicalAction)
    (this_button : Option LogicalAction) (h : pyTruthy last_button = true) :
    (resolveTail seed last_button queue this_button).2.2.countP assertsAction = 0 ∧
    ((resolveTail seed last_button queue this_button).1 = last_button ∨
      (resolveTail seed last_button queue this_button).1 = none) ∧
    (resolveTail seed last_button queue this_button).2.1 = queue := by
  unfold resolveTail
  by_cases ht : pyTruthy this_button
  · rw [if_neg (by simp [h]), if_neg (by simp [ht])]
    simp
  · rw [if_neg (by simp [ht]), if_pos (by simp [h, ht])]
    exact ⟨countP_asserts_emit_now_zero _ _, Or.inr rfl, rfl⟩

theorem resolveTail_of_not_truthy_this (seed : InputEvent)
    (last_button : Option LogicalAction) (queue : List LogicalAction)
    (this_button : Option LogicalAction) (h : pyTruthy this_button = false) :
    (resolveTail seed last_button queue this_button).2.2.countP assertsAction = 0 ∧
    (resolveTail seed last_button queue this_button).2.1 = queue := by
  unfold resolveTail
  rw [if_neg (by simp [h])]
  by_cases hl : pyTruthy last_button
  · rw [if_pos (by simp [h, hl])]
    exact ⟨countP_asserts_emit_now_zero _ _, rfl⟩
  · rw [if_neg (by simp [hl])]
    simp

theorem resolveTail_queue_cases (seed : InputEvent)
    (last_button : Option LogicalAction) (queue : List LogicalAction)
    (this_button : Option LogicalAction) :
    (resolveTail seed last_button queue this_button).2.1
        = removeCatchingValueError queue (this_button.getD []) ∨
    (resolveTail seed last_button queue this_button).2.1 = queue := by
  unfold resolveTail
  split
  · exact Or.inl rfl
  · split
    · exact Or.inr rfl
    · exact Or.inr rfl

theorem buttonChain_queue_nodup (seed_event : InputEvent)
    (active_keys : List Int) (acc : ChainAcc) (r : ChordRule)
    (h : acc.queue.Nodup) :
    ((buttonChain seed_event active_keys acc r).queue).Nodup := by
  unfold buttonChain
  split
  · next hc => simp [List.nodup_append, h, hc.2.2]
  · split
    · exact h
    · exact h

theorem buttonChain_of_value_two (seed_event : InputEvent)
    (active_keys : List Int) (acc : ChainAcc) (r : ChordRule)
    (hv : seed_event.value = 2) :
    buttonChain seed_event active_keys acc r = acc := by
  unfold buttonChain
  rw [if_neg (by simp [hv]), if_neg (by simp [hv])]

theorem foldl_fixed {α β : Type} (f : α → β → α) (a : α) :
    ∀ l : List β, (∀ b ∈ l, f a b = a) → l.foldl f a = a
  | [], _ => rfl
  | b :: t, h => by
    rw [List.foldl_cons, h b (by simp)]
    exact foldl_fixed f a t (fun x hx => h x (by simp [hx]))

theorem foldl_chain_nodup (seed_event : InputEvent) (active_keys : List Int) :
    ∀ (l : List ChordRule) (acc : ChainAcc), acc.queue.Nodup →
      ((l.foldl (buttonChain seed_event active_keys) acc).queue).Nodup
  | [], _, h => h
  | r :: t, acc, h => by
    rw [List.foldl_cons]
    exact foldl_chain_nodup seed_event active_keys t _
      (buttonChain_queue_nodup seed_event active_keys acc r h)

theorem scanChains_queue_nodup (cfg : Config) (seed_event : InputEvent)
    (active_keys : List Int) (queue : List LogicalAction)
    (t0 : Option LogicalAction) (h : queue.Nodup) :
    ((scanChains cfg seed_event active_keys queue t0).queue).Nodup :=
  foldl_chain_nodup seed_event active_keys (chordRules cfg) _ h

theorem chordRules_pattern_mem (cfg : Config) (r : ChordRule)
    (hr : r ∈ chordRules cfg) : r.pattern ∈ registeringPatterns := by
  simp only [chordRules, List.mem_cons, List.not_mem_nil, or_false] at hr
  rcases hr with h | h | h | h | h | h | h | h | h | h | h <;> subst h <;>
    simp [registeringPatterns]

theorem registeringPatterns_facts :
    ∀ p ∈ registeringPatterns, p ≠ [] ∧ p ≠ [187] ∧ p ≠ [188] := by decide

theorem stringRuleThis_of_value_two (seed_event : InputEvent)
    (active_keys : List Int) (t0 : Option LogicalAction)
    (hv : seed_event.value = 2) :
    stringRuleThis seed_event active_keys t0 = t0 := by
  unfold stringRuleThis
  simp [hv]

theorem fallbackThis_of_ne_nil (queue : List LogicalAction)
    (active_keys : List Int) (h : active_keys ≠ []) :
    fallbackThis queue active_keys = none := by
  unfold fallbackThis
  rw [if_neg (by simp [h])]

theorem axEmissions_of_other_keys (seed_event : InputEvent)
    (active_keys : List Int) (btn : LogicalAction) (axCode : Int)
    (h1 : active_keys ≠ [axCode]) (h2 : active_keys ≠ []) :
    axEmissions seed_event active_keys btn axCode = [] := by
  unfold axEmissions
  rw [if_neg (by simp [h1]), if_neg (by simp [h2])]

/-- Shorthand for the chain accumulator process_event obtains after running
the chord blocks. -/
def chainResult (cfg : Config) (s : EmitterState) (seed_event : InputEvent)
    (active_keys : List Int) : ChainAcc :=
  scanChains cfg seed_event active_keys s.event_queue
    (stringRuleThis seed_event active_keys (fallbackThis s.event_queue active_keys))

theorem process_event_queue_eq (cfg : Config) (s : EmitterState)
    (seed_event : InputEvent) (active_keys : List Int) :
    (process_event cfg s seed_event active_keys).state.event_queue
      = (resolveTail seed_event s.last_button
          (chainResult cfg s seed_event active_keys).queue
          (chainResult cfg s seed_event active_keys).this_button).2.1 := rfl

theorem process_event_last_eq (cfg : Config) (s : EmitterState)
    (seed_event : InputEvent) (active_keys : List Int) :
    (process_event cfg s seed_event active_keys).state.last_button
      = (resolveTail seed_event s.last_button
          (chainResult cfg s seed_event active_keys).queue
          (chainResult cfg s seed_event active_keys).this_button).1 := rfl

theorem process_event_tail_eq (cfg : Config) (s : EmitterState)
    (seed_event : InputEvent) (active_keys : List Int) :
    (process_event cfg s seed_event active_keys).tailEmissions
      = (resolveTail seed_event s.last_button
          (chainResult cfg s seed_event active_keys).queue
          (chainResult cfg s seed_event active_keys).this_button).2.2 := rfl

theorem process_event_passthrough_eq (cfg : Config) (s : EmitterState)
    (seed_event : InputEvent) (active_keys : List Int) :
    (process_event cfg s seed_event active_keys).passthrough
      = (axEmissions seed_event active_keys cfg.event_btn_a 187
          ++ axEmissions seed_event active_keys cfg.event_btn_x 188)
        ++ (chainResult cfg s seed_event active_keys).emis := rfl

/- Claim theorems. -/

/-- Claim C1: the exclusive emitting slot last_button holds at most one
LogicalAction, and process_event's promote/demote tail emits a press (or a
side-effect dispatch) for a newly resolved action only when the slot is
empty: whenever the slot is occupied, the tail emits no asserting event at
all and the slot is either kept or cleared, never replaced — so two
LogicalActions are never simultaneously hot on the virtual output device. -/
theorem c1_exclusive_emission_slot (cfg : Config) (s : EmitterState)
    (seed_event : InputEvent) (active_keys : List Int)
    (h : pyTruthy s.last_button = true) :
    (process_event cfg s seed_event active_keys).tailEmissions.countP
        assertsAction = 0 ∧
    ((process_event cfg s seed_event active_keys).state.last_button
        = s.last_button ∨
      (process_event cfg s seed_event active_keys).state.last_button = none) := by
  rw [process_event_tail_eq, process_event_last_eq]
  obtain ⟨h1, h2, -⟩ := resolveTail_of_truthy_last seed_event s.last_button
    (chainResult cfg s seed_event active_keys).queue
    (chainResult cfg s seed_event active_keys).this_button h
  exact ⟨h1, h2⟩

/-- Sample state whose exclusive slot is occupied by actA. -/
def sHot : EmitterState := { event_queue := [], last_button := some actA }

/-- Witness for C1 at a concrete occupied-slot state. -/
theorem c1_witness :
    (process_event cfg0 sHot seed0 []).tailEmissions.countP assertsAction = 0 ∧
    ((process_event cfg0 sHot seed0 []).state.last_button = sHot.last_button ∨
      (process_event cfg0 sHot seed0 []).state.last_button = none) :=
  c1_exclusive_emission_slot cfg0 sHot seed0 [] (by decide)

/-- Claim C2 as stated is false: with the slot hot on actA and a different
action actB resolved for the current event, process_event's tail emits
nothing at all (no release for the occupant, no press for the new action) and
the slot keeps its old occupant instead of being handed to actB. -/
theorem c2_counterexample :
    pyTruthy (some actA) = true ∧ pyTruthy (some actB) = true ∧ actA ≠ actB ∧
    (resolveTail seed0 (some actA) [actB] (some actB)).2.2 = [] ∧
    (resolveTail seed0 (some actA) [actB] (some actB)).1 ≠ some actB := by
  decide

/-- Claim C2 (amended): when the engine resolves a new LogicalAction while
the slot is occupied — by the same or by a different action — the
promote/demote tail of process_event emits nothing and leaves the slot, its
occupant and the queue unchanged; a release for the occupant is only emitted
by a later call that resolves no action, and a press only by a call that
finds the slot empty. -/
theorem c2_occupied_slot_blocks_promotion (seed_event : InputEvent)
    (last_button : Option LogicalAction) (queue : List LogicalAction)
    (this_button : Option LogicalAction)
    (hl : pyTruthy last_button = true) (ht : pyTruthy this_button = true) :
    resolveTail seed_event last_button queue this_button
      = (last_button, queue, []) := by
  unfold resolveTail
  rw [if_neg (by simp [hl]), if_neg (by simp [ht])]

/-- Witness for the amended C2 at concrete occupied-slot inputs. -/
theorem c2_witness :
    resolveTail seed0 (some actA) [actB] (some actB)
      = (some actA, [actB], []) :=
  c2_occupied_slot_blocks_promotion seed0 (some actA) [actB] (some actB)
    (by decide) (by decide)

/-- Claim C4: process_event preserves the at-most-once queue invariant (every
chord registration appends its action only when absent), and the
try/except-guarded dequeue of a resolved action that is absent from the queue
is a safe no-op leaving the queue unchanged. -/
theorem c4_queue_at_most_once :
    (∀ (cfg : Config) (s : EmitterState) (seed_event : InputEvent)
        (active_keys : List Int), s.event_queue.Nodup →
        ((process_event cfg s seed_event active_keys).state.event_queue).Nodup) ∧
    (∀ (q : List LogicalAction) (a : LogicalAction), a ∉ q →
        removeCatchingValueError q a = q) := by
  constructor
  · intro cfg s seed_event active_keys h
    rw [process_event_queue_eq]
    have hscan : ((chainResult cfg s seed_event active_keys).queue).Nodup :=
      scanChains_queue_nodup cfg seed_event active_keys s.event_queue _ h
    rcases resolveTail_queue_cases seed_event s.last_button
        (chainResult cfg s seed_event active_keys).queue
        (chainResult cfg s seed_event active_keys).this_button with hq | hq <;>
      rw [hq]
    · exact nodup_removeCatchingValueError _ _ hscan
    · exact hscan
  · exact removeCatchingValueError_of_not_mem

/-- Witness for C4: a concrete deduplicated state stays deduplicated, and a
concrete absent dequeue is a no-op. -/
theorem c4_witness :
    ((process_event cfg0 { event_queue := [actB], last_button := none }
        seed0 []).state.event_queue).Nodup ∧
    removeCatchingValueError [actB] actA = [actB] :=
  ⟨c4_queue_at_most_once.1 cfg0 { event_queue := [actB], last_button := none }
      seed0 [] (by decide),
    c4_queue_at_most_once.2 [actB] actA (by decide)⟩

/-- Claim C3: for a LogicalAction given as pairs, a press (value 1) emission
produces one synthetic event per pair in listed order with value 1, a release
(value 0) produces events for the same pairs in reverse order with value 0,
the emitted code sequences are exact reverses of each other, and the code
sets of the press and release emissions coincide. -/
theorem c3_press_release_pairing (seed_event : InputEvent)
    (ps : List (Int × Int)) (h : ps ≠ []) :
    synthsOf (emit_now seed_event (codesAction ps) 1)
      = ps.map (fun p => InputEvent.mk seed_event.sec seed_event.usec p.1 p.2 1) ∧
    synthsOf (emit_now seed_event (codesAction ps) 0)
      = ps.reverse.map
          (fun p => InputEvent.mk seed_event.sec seed_event.usec p.1 p.2 0) ∧
    (synthsOf (emit_now seed_event (codesAction ps) 1)).map InputEvent.code
      = ((synthsOf (emit_now seed_event (codesAction ps) 0)).map
          InputEvent.code).reverse ∧
    ∀ c : Int,
      c ∈ (synthsOf (emit_now seed_event (codesAction ps) 1)).map InputEvent.code
        ↔ c ∈ (synthsOf (emit_now seed_event (codesAction ps) 0)).map
            InputEvent.code := by
  match ps, h with
  | p :: ps', _ =>
    have h1 : synthsOf (emit_now seed_event (codesAction (p :: ps')) 1)
        = (p :: ps').map
            (fun q => InputEvent.mk seed_event.sec seed_event.usec q.1 q.2 1) := by
      simp [emit_now, codesAction, synthsOf_emitBySize, List.map_map,
        Function.comp, mkSynth, elem_type, elem_code]
    have h0 : synthsOf (emit_now seed_event (codesAction (p :: ps')) 0)
        = (p :: ps').reverse.map
            (fun q => InputEvent.mk seed_event.sec seed_event.usec q.1 q.2 0) := by
      simp [emit_now, codesAction, synthsOf_emitBySize, List.map_map,
        Function.comp, mkSynth, elem_type, elem_code, List.map_reverse]
    refine ⟨h1, h0, ?_, ?_⟩
    · rw [h1, h0]
      simp [List.map_map, Function.comp, List.map_reverse]
    · intro c
      rw [h1, h0]
      simp [List.mem_map]
      tauto

/-- Witness for C3 at a concrete two-pair action. -/
theorem c3_witness :
    synthsOf (emit_now seed0 (codesAction [(1, 304), (1, 305)]) 1)
      = [⟨10, 20, 1, 304, 1⟩, ⟨10, 20, 1, 305, 1⟩] ∧
    synthsOf (emit_now seed0 (codesAction [(1, 304), (1, 305)]) 0)
      = [⟨10, 20, 1, 305, 0⟩, ⟨10, 20, 1, 304, 0⟩] ∧
    (synthsOf (emit_now seed0 (codesAction [(1, 304), (1, 305)]) 1)).map
        InputEvent.code
      = ((synthsOf (emit_now seed0 (codesAction [(1, 304), (1, 305)]) 0)).map
          InputEvent.code).reverse ∧
    ∀ c : Int,
      c ∈ (synthsOf (emit_now seed0 (codesAction [(1, 304), (1, 305)]) 1)).map
          InputEvent.code
        ↔ c ∈ (synthsOf (emit_now seed0 (codesAction [(1, 304), (1, 305)]) 0)).map
            InputEvent.code :=
  c3_press_release_pairing seed0 [(1, 304), (1, 305)] (by decide)

/-- Claim C5 as stated is false: with ActiveKeySet empty and a non-empty
ActionQueue [button5, button1], an event with code 184 and value 0 resolves
button1 through the BUTTON 1 release arm, overriding the fallback, so the
resolved completing action is not the first element of the queue. -/
theorem c5_counterexample :
    ([] : List Int) = [] ∧
    ([cfg0.button5, cfg0.button1] : List LogicalAction) ≠ [] ∧
    resolvedButton cfg0 [cfg0.button5, cfg0.button1] seed0 []
      ≠ ([cfg0.button5, cfg0.button1] : List LogicalAction).head? := by
  decide

theorem stringRuleThis_nil_keys (seed_event : InputEvent)
    (t0 : Option LogicalAction) : stringRuleThis seed_event [] t0 = t0 := by
  unfold stringRuleThis
  simp

/-- Claim C5 (amended): when process_event runs with an empty ActiveKeySet
and a non-empty ActionQueue, the first (oldest-enqueued) element of the queue
is taken as the default resolved completing action, and it is the final
resolved action provided no explicit release arm fires (no chord rule has the
event's code in its release code set together with value 0 and its mapped
button in the queue); a firing release arm overrides the fallback with its
own action instead. -/
theorem c5_fallback_is_default (cfg : Config) (queue : List LogicalAction)
    (seed_event : InputEvent) (hq : queue ≠ [])
    (hno : ∀ r ∈ chordRules cfg,
      ¬(seed_event.code ∈ r.upCodes ∧ seed_event.value = 0 ∧ r.button ∈ queue)) :
    resolvedButton cfg queue seed_event [] = queue.head? := by
  have h0 : fallbackThis queue [] = queue.head? := by
    unfold fallbackThis
    rw [if_pos ⟨rfl, hq⟩]
  unfold resolvedButton scanChains
  rw [h0, stringRuleThis_nil_keys]
  have hfix := foldl_fixed (buttonChain seed_event [])
      { queue := queue, this_button := queue.head?, emis := ([] : List Emission) }
      (chordRules cfg) ?_
  · rw [hfix]
  · intro r hr
    have hp := (registeringPatterns_facts _ (chordRules_pattern_mem cfg r hr)).1
    unfold buttonChain
    rw [if_neg (fun hc => hp hc.1.symm),
      if_neg (fun hc => hno r hr ⟨hc.2.1, hc.2.2.1, hc.2.2.2⟩)]

/-- Witness for the amended C5: with a non-empty queue and a repeat-value
event matching no release arm, the resolved action is the queue head. -/
theorem c5_witness :
    resolvedButton cfg0 [cfg0.button5, cfg0.button1] ⟨10, 20, 1, 184, 2⟩ []
      = ([cfg0.button5, cfg0.button1] : List LogicalAction).head? :=
  c5_fallback_is_default cfg0 [cfg0.button5, cfg0.button1] ⟨10, 20, 1, 184, 2⟩
    (by decide) (by decide)

theorem chainResult_of_value_two (cfg : Config) (s : EmitterState)
    (seed_event : InputEvent) (active_keys : List Int)
    (hv : seed_event.value = 2) :
    chainResult cfg s seed_event active_keys
      = { queue := s.event_queue,
          this_button := stringRuleThis seed_event active_keys
            (fallbackThis s.event_queue active_keys),
          emis := [] } := by
  unfold chainResult scanChains
  exact foldl_fixed _ _ _
    (fun r _ => buttonChain_of_value_two seed_event active_keys _ r hv)

/-- Claim C6: a repeat event (value 2) arriving with the active-key pattern
of a registered chord does not re-register its action: the ActionQueue is
left unchanged and the call produces no press or side-effect dispatch. -/
theorem c6_repeat_does_not_reregister (cfg : Config) (s : EmitterState)
    (seed_event : InputEvent) (active_keys : List Int) (r : ChordRule)
    (hr : r ∈ chordRules cfg) (hkeys : active_keys = r.pattern)
    (hv : seed_event.value = 2) (hin : r.button ∈ s.event_queue) :
    (process_event cfg s seed_event active_keys).state.event_queue
        = s.event_queue ∧
    ((process_event cfg s seed_event active_keys).passthrough
        ++ (process_event cfg s seed_event active_keys).tailEmissions).countP
      assertsAction = 0 := by
  obtain ⟨hne, h187, h188⟩ :=
    registeringPatterns_facts _ (chordRules_pattern_mem cfg r hr)
  have hne' : active_keys ≠ [] := by rw [hkeys]; exact hne
  have hthis : (chainResult cfg s seed_event active_keys).this_button = none := by
    rw [chainResult_of_value_two cfg s seed_event active_keys hv,
      stringRuleThis_of_value_two seed_event active_keys _ hv,
      fallbackThis_of_ne_nil s.event_queue active_keys hne']
  have htail := resolveTail_of_not_truthy_this seed_event s.last_button
    (chainResult cfg s seed_event active_keys).queue
    (chainResult cfg s seed_event active_keys).this_button
    (by rw [hthis]; rfl)
  constructor
  · rw [process_event_queue_eq, htail.2,
      chainResult_of_value_two cfg s seed_event active_keys hv]
  · rw [List.countP_append, process_event_tail_eq, htail.1,
      process_event_passthrough_eq,
      axEmissions_of_other_keys seed_event active_keys cfg.event_btn_a 187
        (by rw [hkeys]; exact h187) hne',
      axEmissions_of_other_keys seed_event active_keys cfg.event_btn_x 188
        (by rw [hkeys]; exact h188) hne',
      chainResult_of_value_two cfg s seed_event active_keys hv]
    rfl

/-- Witness for C6: a repeat of the BUTTON 1 chord with button1 already
queued leaves the queue unchanged and asserts nothing. -/
theorem c6_witness :
    (process_event cfg0 { event_queue := [cfg0.button1], last_button := none }
        ⟨10, 20, 1, 184, 2⟩ [184]).state.event_queue = [cfg0.button1] ∧
    ((process_event cfg0 { event_queue := [cfg0.button1], last_button := none }
        ⟨10, 20, 1, 184, 2⟩ [184]).passthrough
      ++ (process_event cfg0 { event_queue := [cfg0.button1], last_button := none }
        ⟨10, 20, 1, 184, 2⟩ [184]).tailEmissions).countP assertsAction = 0 :=
  c6_repeat_does_not_reregister cfg0
    { event_queue := [cfg0.button1], last_button := none }
    ⟨10, 20, 1, 184, 2⟩ [184]
    ⟨[184], [184, 185], cfg0.button1, false⟩
    (by decide) (by decide) (by decide) (by decide)

/-- Claim C7: a side-effect LogicalAction dispatches to its handler exactly
once on press (value 1), and its release (value 0) invokes no handler and
writes no synthetic event. -/
theorem c7_side_effect_dispatch (seed_event : InputEvent) (name : String)
    (h : name ∈ handledNames) :
    (emit_now seed_event [ActionElem.str name] 1).countP isHandlerEmission = 1 ∧
    (emit_now seed_event [ActionElem.str name] 0).countP isHandlerEmission = 0 ∧
    (emit_now seed_event [ActionElem.str name] 0).countP isSynthEmission = 0 := by
  refine ⟨?_, rfl, rfl⟩
  fin_cases h <;> rfl

/-- Witness for C7 on the "Toggle Performance" side effect. -/
theorem c7_witness :
    (emit_now seed0 [ActionElem.str "Toggle Performance"] 1).countP
        isHandlerEmission = 1 ∧
    (emit_now seed0 [ActionElem.str "Toggle Performance"] 0).countP
        isHandlerEmission = 0 ∧
    (emit_now seed0 [ActionElem.str "Toggle Performance"] 0).countP
        isSynthEmission = 0 :=
  c7_side_effect_dispatch seed0 "Toggle Performance" (by decide)

/-- Claim C8: emit_now with an empty event list only logs an error (no
emission, no mutation, no exception), and emit_now with an unknown
side-effect name only logs a warning. -/
theorem c8_malformed_or_unknown (seed_event : InputEvent) (value : Int)
    (name : String) (h : name ∉ matchArmNames) :
    emit_now seed_event [] value
      = [Emission.logError "emit_now received malfirmed event_list. No action"] ∧
    emit_now seed_event [ActionElem.str name] 1
      = [Emission.logWarning (name ++ " not defined.")] := by
  refine ⟨rfl, ?_⟩
  simp only [matchArmNames, handledNames, List.mem_append, List.mem_cons,
    List.not_mem_nil, or_false, not_or] at h
  obtain ⟨⟨h1, h2, h3, h4, h5, h6, h7, h8⟩, h9, h10⟩ := h
  show stringDispatch name = _
  unfold stringDispatch
  rw [if_neg h1, if_neg h2, if_neg h3, if_neg h4, if_neg h5, if_neg h6,
    if_neg h7, if_neg h9, if_neg h10, if_neg h8]

/-- Witness for C8: the "Hibernate" name reaches the wildcard arm (the
source's comma-separated case is a sequence pattern that never matches a
string), producing only a warning. -/
theorem c8_witness :
    emit_now seed0 [] 1
      = [Emission.logError "emit_now received malfirmed event_list. No action"] ∧
    emit_now seed0 [ActionElem.str "Hibernate"] 1
      = [Emission.logWarning ("Hibernate" ++ " not defined.")] :=
  c8_malformed_or_unknown seed0 1 "Hibernate" (by decide)

/-- Claim C9: a multi-event action is emitted with a BUTTON_DELAY sleep
between every two consecutive synthetic events and none after the last
(the emission trace is the synth list interspersed with sleeps), while a
single-event action is emitted with no pacing sleep at all. -/
theorem c9_pacing_delay (seed_event : InputEvent) (ps : List (Int × Int)) :
    (2 ≤ ps.length →
      emit_now seed_event (codesAction ps) 1
        = List.intersperse Emission.sleep
            (ps.map (fun p => Emission.synth
              ⟨seed_event.sec, seed_event.usec, p.1, p.2, 1⟩))) ∧
    (ps.length = 1 →
      emit_now seed_event (codesAction ps) 1
        = ps.map (fun p => Emission.synth
            ⟨seed_event.sec, seed_event.usec, p.1, p.2, 1⟩) ∧
      (emit_now seed_event (codesAction ps) 1).countP isSleep = 0) := by
  constructor
  · intro h2
    match ps, h2 with
    | p1 :: p2 :: rest, _ =>
      have hev : emit_now seed_event (codesAction (p1 :: p2 :: rest)) 1
          = emit_events ((codesAction (p1 :: p2 :: rest)).map
              (mkSynth seed_event 1)) := by
        rw [codesAction, List.map_cons, List.map_cons, emit_now,
          if_neg (by decide), emitBySize.eq_def, if_pos (by simp)]
      rw [hev, emit_events_eq_intersperse]
      congr 1
      simp only [codesAction, List.map_map]
      exact List.map_congr_left (fun a ha => rfl)
  · intro h1
    match ps, h1 with
    | [p], _ => exact ⟨rfl, rfl⟩

/-- Witness for C9: a two-pair action gets exactly one interior sleep, a
one-pair action gets none. -/
theorem c9_witness :
    emit_now seed0 (codesAction [(1, 304), (1, 305)]) 1
      = List.intersperse Emission.sleep
          [Emission.synth ⟨10, 20, 1, 304, 1⟩, Emission.synth ⟨10, 20, 1, 305, 1⟩] ∧
    (emit_now seed0 (codesAction [(1, 304)]) 1).countP isSleep = 0 :=
  ⟨(c9_pacing_delay seed0 [(1, 304), (1, 305)]).1 (by decide),
    ((c9_pacing_delay seed0 [(1, 304)]).2 (by decide)).2⟩

/-- Claim C10: the configured power action runs exactly once per EV_KEY
code-116 release (value 0) delivered by the power device, and never for
presses, repeats, other codes or other event types. -/
theorem c10_power_action_on_release (power_action : String) (ev : InputEvent)
    (h : power_action ∈ ["Suspend", "Hibernate", "Shutdown"]) :
    (power_event_step power_action ev).countP isSysCommand
      = if ev.type = EV_KEY ∧ ev.code = 116 ∧ ev.value = 0 then 1 else 0 := by
  have hone : (handle_power_action power_action).countP isSysCommand = 1 := by
    fin_cases h <;> rfl
  unfold power_event_step
  by_cases h1 : ev.type = EV_KEY ∧ ev.code = 116
  · rw [if_pos h1]
    by_cases h2 : ev.value = 0
    · rw [if_pos h2, if_pos ⟨h1.1, h1.2, h2⟩, hone]
    · rw [if_neg h2, if_neg (fun hc => h2 hc.2.2)]
      rfl
  · rw [if_neg h1, if_neg (fun hc => h1 ⟨hc.1, hc.2.1⟩)]
    rfl

/-- Witness for C10 on a concrete KEY_POWER release with the Suspend
configuration. -/
theorem c10_witness :
    (power_event_step "Suspend" ⟨10, 20, 1, 116, 0⟩).countP isSysCommand
      = if (⟨10, 20, 1, 116, 0⟩ : InputEvent).type = EV_KEY
            ∧ (⟨10, 20, 1, 116, 0⟩ : InputEvent).code = 116
            ∧ (⟨10, 20, 1, 116, 0⟩ : InputEvent).value = 0
        then 1 else 0 :=
  c10_power_action_on_release "Suspend" ⟨10, 20, 1, 116, 0⟩ (by decide)

end HandyGCCS
